import Mathlib

/-!
Verification of the snap model PCR profile construction (`snapmodel_policy.go`)
against its specification.  The stateful Go code is embedded as explicit state
passing: `AddSnapModelProfile` returns the error value together with the final
state of the profile it was handed.  Machine integers stay within `Int`/`Nat`
range here (a PCR index and byte values), and Go byte strings are modelled as
their byte sequences (`List Nat`).
-/

namespace Secboot

/-- A hash algorithm identifier, as the repository uses `tpm2.HashAlgorithmId`.
The concrete hash constructions live in an external library, so an algorithm is
abstracted as its underlying map from a byte sequence to a digest. -/
structure HashAlgorithmId where
  hash : List Nat → List Nat

/-- State of a streaming hash obtained from `HashAlgorithmId.NewHash`: the
algorithm together with the bytes written so far. -/
structure Hash where
  alg : HashAlgorithmId
  buf : List Nat

/-- Model of `params.PCRAlgorithm.NewHash()`: a fresh hash with an empty
buffer. -/
def HashAlgorithmId.NewHash (a : HashAlgorithmId) : Hash := ⟨a, []⟩

/-- Model of `h.Write(data)`: appends the bytes to the buffer. -/
def Hash.Write (h : Hash) (data : List Nat) : Hash := ⟨h.alg, h.buf ++ data⟩

/-- Model of `h.Sum(nil)`: the digest of everything written so far. -/
def Hash.Sum (h : Hash) : List Nat := h.alg.hash h.buf

/-- Value of a byte in the base64url alphabet used by `base64.RawURLEncoding`
(letters, digits, `-`, `_`), and `none` for any byte outside the alphabet. -/
def b64URLValue (c : Nat) : Option Nat :=
  if 65 ≤ c ∧ c ≤ 90 then some (c - 65)
  else if 97 ≤ c ∧ c ≤ 122 then some (c - 97 + 26)
  else if 48 ≤ c ∧ c ≤ 57 then some (c - 48 + 52)
  else if c = 45 then some 62
  else if c = 95 then some 63
  else none

/-- Reassembly of decoded 6-bit values into bytes: a full quantum of four
values yields three bytes; with no padding a final quantum of three values
yields two bytes and one of two values yields one byte, while a single
leftover value is corrupt input. -/
def b64Quanta : List Nat → Option (List Nat)
  | [] => some []
  | [_] => none
  | [a, b] => some [a * 4 + b / 16]
  | [a, b, c] => some [a * 4 + b / 16, b % 16 * 16 + c / 4]
  | a :: b :: c :: d :: rest =>
    match b64Quanta rest with
    | none => none
    | some tail =>
      some ((a * 4 + b / 16) :: (b % 16 * 16 + c / 4) :: (c % 4 * 64 + d) :: tail)

/-- Model of `base64.RawURLEncoding.DecodeString`: new line bytes (LF, CR) are
ignored, every remaining byte must be in the base64url alphabet, and the 6-bit
values are reassembled into bytes.  `none` stands for a `CorruptInputError`. -/
def RawURLEncoding.DecodeString (s : List Nat) : Option (List Nat) :=
  match (s.filter fun c => c != 10 && c != 13).mapM b64URLValue with
  | none => none
  | some vs => b64Quanta vs

/-- The fields of `asserts.Model` that `AddSnapModelProfile` reads through the
accessors `SignKeyID`, `BrandID`, `Model` and `Series`, each a Go string
modelled as its byte sequence. -/
structure Model where
  signKeyID : List Nat
  brandID : List Nat
  model : List Nat
  series : List Nat
deriving DecidableEq

/-- Model of `SnapModelProfileParams`; `Models` holds possibly nil pointers,
hence the `Option`. -/
structure SnapModelProfileParams where
  PCRAlgorithm : HashAlgorithmId
  PCRIndex : Int
  Models : List (Option Model)

/-- Modelled from the spec: `PCRProtectionProfile` belongs to this repository
but is outside the provided sources, so profiles take the tree form of the
spec's data model — an `Extend(bank, index, value)` node chains to exactly one
child, a `Branch` holds an ordered sequence of sub-trees, and `End` (here
`fin`) is the terminal leaf. -/
inductive ProfileNode where
  | fin : ProfileNode
  | ext : HashAlgorithmId → Int → List Nat → ProfileNode → ProfileNode
  | branch : List ProfileNode → ProfileNode

/-- Modelled from the spec: `NewPCRProtectionProfile()` returns an empty
profile, a single `End`. -/
def NewPCRProtectionProfile : ProfileNode := ProfileNode.fin

/-- Modelled from the spec: `ExtendPCR` appends an `Extend` node to every
current leaf.  The spec's digest-length constraint is not modelled, since the
repository's fluent method returns the profile itself and every digest this
file feeds it is produced by the bank's own hash. -/
def ExtendPCR (p : ProfileNode) (alg : HashAlgorithmId) (pcr : Int)
    (digest : List Nat) : ProfileNode :=
  match p with
  | .fin => .ext alg pcr digest .fin
  | .ext a i v next => .ext a i v (ExtendPCR next alg pcr digest)
  | .branch cs => .branch (cs.attach.map fun ⟨c, _hc⟩ => ExtendPCR c alg pcr digest)
termination_by sizeOf p
decreasing_by
  all_goals simp_wf
  all_goals first
    | omega
    | (have h := List.sizeOf_lt_of_mem _hc
       omega)

/-- Modelled from the spec: `AddProfileOR` replaces every current leaf with a
`Branch` whose children are the roots of the given sub-profiles, preserving
sub-profile order. -/
def AddProfileOR (p : ProfileNode) (subs : List ProfileNode) : ProfileNode :=
  match p with
  | .fin => .branch subs
  | .ext a i v next => .ext a i v (AddProfileOR next subs)
  | .branch cs => .branch (cs.attach.map fun ⟨c, _hc⟩ => AddProfileOR c subs)
termination_by sizeOf p
decreasing_by
  all_goals simp_wf
  all_goals first
    | omega
    | (have h := List.sizeOf_lt_of_mem _hc
       omega)

/-- The body of the loop of `AddSnapModelProfile` for one non-nil model:
decode the signing key ID, then chain three hashes over sign-key and brand-id,
first digest and model, second digest and series.  The error carries the fixed
prefix of the wrapped Go error `cannot decode signing key ID: %w`. -/
def measureModel (alg : HashAlgorithmId) (m : Model) : Except String (List Nat) :=
  match RawURLEncoding.DecodeString m.signKeyID with
  | none => .error "cannot decode signing key ID"
  | some signKeyId =>
    let h := (alg.NewHash.Write signKeyId).Write m.brandID
    let digest := h.Sum
    let h2 := (alg.NewHash.Write digest).Write m.model
    let digest2 := h2.Sum
    let h3 := (alg.NewHash.Write digest2).Write m.series
    .ok h3.Sum

/-- The loop of `AddSnapModelProfile`: a nil model or an undecodable signing
key ID aborts with the corresponding error; otherwise one sub-profile per
model is collected in list order, each a fresh profile extended once with the
model's measurement. -/
def buildSubProfiles (alg : HashAlgorithmId) (pcr : Int) :
    List (Option Model) → Except String (List ProfileNode)
  | [] => .ok []
  | none :: _ => .error "nil model"
  | some m :: rest =>
    match measureModel alg m with
    | .error e => .error e
    | .ok digest =>
      match buildSubProfiles alg pcr rest with
      | .error e => .error e
      | .ok subs => .ok (ExtendPCR NewPCRProtectionProfile alg pcr digest :: subs)

/-- Model of `AddSnapModelProfile`.  The Go function mutates `profile` through
one `AddProfileOR` call and returns an error value; here the returned pair
carries the error (`none` for Go's nil) and the final state of the profile. -/
def AddSnapModelProfile (profile : ProfileNode) (params : SnapModelProfileParams) :
    Option String × ProfileNode :=
  if params.PCRIndex < 0 then (some "invalid PCR index", profile)
  else if params.Models.length = 0 then (some "no models provided", profile)
  else
    match buildSubProfiles params.PCRAlgorithm params.PCRIndex params.Models with
    | .error e => (some e, profile)
    | .ok subProfiles => (none, AddProfileOR profile subProfiles)

/-- The three-stage chained measurement as the documentation states it:
digest1 = H(sign-key-sha3-384 and brand-id), digest2 = H(digest1 and model),
result = H(digest2 and series), the sign key taken in decoded form and the
strings hashed without terminators. -/
def chainedModelDigest (alg : HashAlgorithmId) (m : Model)
    (signKeyId : List Nat) : List Nat :=
  alg.hash (alg.hash (alg.hash (signKeyId ++ m.brandID) ++ m.model) ++ m.series)

/-- A concrete algorithm used to instantiate the universally quantified
statements below on explicit inputs. -/
def sampleAlg : HashAlgorithmId := ⟨fun l => [l.length % 256]⟩

lemma measureModel_ok (alg : HashAlgorithmId) (m : Model) (sk : List Nat)
    (h : RawURLEncoding.DecodeString m.signKeyID = some sk) :
    measureModel alg m = .ok (chainedModelDigest alg m sk) := by
  simp [measureModel, h, chainedModelDigest, HashAlgorithmId.NewHash, Hash.Write,
    Hash.Sum]

lemma measureModel_err (alg : HashAlgorithmId) (m : Model) (e : String)
    (h : measureModel alg m = .error e) :
    e = "cannot decode signing key ID" ∧
      RawURLEncoding.DecodeString m.signKeyID = none := by
  rcases hd : RawURLEncoding.DecodeString m.signKeyID with _ | sk
  · simp [measureModel, hd] at h
    exact ⟨h.symm, rfl⟩
  · simp [measureModel, hd] at h

lemma buildSubProfiles_length (alg : HashAlgorithmId) (pcr : Int) :
    ∀ (ms : List (Option Model)) (subs : List ProfileNode),
      buildSubProfiles alg pcr ms = .ok subs → subs.length = ms.length := by
  intro ms
  induction ms with
  | nil => intro subs h; simp [buildSubProfiles] at h; simp [h.symm]
  | cons o rest ih =>
    intro subs h
    cases o with
    | none => simp [buildSubProfiles] at h
    | some m =>
      rcases hm : measureModel alg m with e | digest
      · simp [buildSubProfiles, hm] at h
      · rcases hr : buildSubProfiles alg pcr rest with e | subsRest
        · simp [buildSubProfiles, hm, hr] at h
        · simp [buildSubProfiles, hm, hr] at h
          simp [h.symm, ih subsRest hr]

lemma buildSubProfiles_get (alg : HashAlgorithmId) (pcr : Int) :
    ∀ (ms : List (Option Model)) (subs : List ProfileNode),
      buildSubProfiles alg pcr ms = .ok subs →
      ∀ (i : Nat) (hi : i < ms.length) (hsi : i < subs.length),
        ∃ m sk, ms.get ⟨i, hi⟩ = some m ∧
          RawURLEncoding.DecodeString m.signKeyID = some sk ∧
          subs.get ⟨i, hsi⟩ =
            ProfileNode.ext alg pcr (chainedModelDigest alg m sk) ProfileNode.fin := by
  intro ms
  induction ms with
  | nil => intro subs h i hi; exact absurd hi (by simp)
  | cons o rest ih =>
    intro subs h i hi hsi
    cases o with
    | none => simp [buildSubProfiles] at h
    | some m =>
      rcases hm : measureModel alg m with e | digest
      · simp [buildSubProfiles, hm] at h
      · rcases hr : buildSubProfiles alg pcr rest with e | subsRest
        · simp [buildSubProfiles, hm, hr] at h
        · simp [buildSubProfiles, hm, hr] at h
          rcases hd : RawURLEncoding.DecodeString m.signKeyID with _ | sk
          · simp [measureModel, hd] at hm
          · have hdig : digest = chainedModelDigest alg m sk := by
              have := measureModel_ok alg m sk hd
              rw [hm] at this
              exact (Except.ok.injEq _ _ |>.mp this)
            subst h
            cases i with
            | zero =>
              refine ⟨m, sk, rfl, hd, ?_⟩
              simp [ExtendPCR, NewPCRProtectionProfile, hdig]
            | succ k =>
              have hk : k < rest.length := by
                simpa using hi
              have hks : k < subsRest.length := by
                have := buildSubProfiles_length alg pcr rest subsRest hr
                omega
              rcases ih subsRest hr k hk hks with ⟨m2, sk2, hget, hdec, hsub⟩
              exact ⟨m2, sk2, hget, hdec, hsub⟩

lemma buildSubProfiles_err (alg : HashAlgorithmId) (pcr : Int) :
    ∀ (ms : List (Option Model)) (e : String),
      buildSubProfiles alg pcr ms = .error e →
      e = "nil model" ∨ e = "cannot decode signing key ID" := by
  intro ms
  induction ms with
  | nil => intro e h; simp [buildSubProfiles] at h
  | cons o rest ih =>
    intro e h
    cases o with
    | none =>
      simp [buildSubProfiles] at h
      exact Or.inl h.symm
    | some m =>
      rcases hm : measureModel alg m with e2 | digest
      · simp [buildSubProfiles, hm] at h
        subst h
        exact Or.inr (measureModel_err alg m e2 hm).1
      · rcases hr : buildSubProfiles alg pcr rest with e2 | subsRest
        · simp [buildSubProfiles, hm, hr] at h
          subst h
          exact ih e2 hr
        · simp [buildSubProfiles, hm, hr] at h

lemma buildSubProfiles_stop (alg : HashAlgorithmId) (pcr : Int) :
    ∀ (ms : List (Option Model)) (i : Nat) (hi : i < ms.length),
      (∀ j (hj : j < i), ∃ m sk,
        ms.get ⟨j, Nat.lt_trans hj hi⟩ = some m ∧
        RawURLEncoding.DecodeString m.signKeyID = some sk) →
      (ms.get ⟨i, hi⟩ = none → buildSubProfiles alg pcr ms = .error "nil model") ∧
      (∀ m, ms.get ⟨i, hi⟩ = some m →
        RawURLEncoding.DecodeString m.signKeyID = none →
        buildSubProfiles alg pcr ms = .error "cannot decode signing key ID") := by
  intro ms
  induction ms with
  | nil => intro i hi; exact absurd hi (by simp)
  | cons o rest ih =>
    intro i hi hpre
    cases i with
    | zero =>
      constructor
      · intro hnil
        have : o = none := hnil
        subst this
        simp [buildSubProfiles]
      · intro m hm hdec
        have : o = some m := hm
        subst this
        simp [buildSubProfiles, measureModel, hdec]
    | succ k =>
      rcases hpre 0 (Nat.succ_pos k) with ⟨m0, sk0, hg0, hd0⟩
      have ho : o = some m0 := hg0
      subst ho
      have hk : k < rest.length := by simpa using hi
      have hpre2 : ∀ j (hj : j < k), ∃ m sk,
          rest.get ⟨j, Nat.lt_trans hj hk⟩ = some m ∧
          RawURLEncoding.DecodeString m.signKeyID = some sk := by
        intro j hj
        rcases hpre (j + 1) (Nat.succ_lt_succ hj) with ⟨m2, sk2, hg2, hd2⟩
        exact ⟨m2, sk2, hg2, hd2⟩
      have hmok := measureModel_ok alg m0 sk0 hd0
      rcases ih k hk hpre2 with ⟨part1, part2⟩
      constructor
      · intro hnil
        have : rest.get ⟨k, hk⟩ = none := hnil
        simp [buildSubProfiles, hmok, part1 this]
      · intro m hm hdec
        have : rest.get ⟨k, hk⟩ = some m := hm
        simp [buildSubProfiles, hmok, part2 m this hdec]

/-- A model with the sign key ID `AAAA` (decoding to three zero bytes), brand
`brand`, model `model`, series `16`, written as byte sequences. -/
def wModel : Model :=
  ⟨[65, 65, 65, 65], [98, 114, 97, 110, 100], [109, 111, 100, 101, 108], [49, 54]⟩

/-- A second structure literal with the same field values as `wModel`. -/
def wModelCopy : Model :=
  ⟨[65, 65, 65, 65], [98, 114, 97, 110, 100], [109, 111, 100, 101, 108], [49, 54]⟩

/-- A model whose sign key ID is the empty string, which decodes to no bytes. -/
def wModel2 : Model := ⟨[], [98], [109], [49, 54]⟩

/-- A model with sign key ID `AB` and fields differing from `wModel2`. -/
def wModel3 : Model := ⟨[65, 66], [99, 99, 99], [110], [49, 54]⟩

/-- A model whose sign key ID is the byte `!`, outside the base64url
alphabet, so decoding fails. -/
def badModel : Model := ⟨[33], [98], [109], [49, 54]⟩

/-- The sub-profile produced for each of the sample models under `sampleAlg`
at PCR 12 (all their chained digests come out as `[3]` under `sampleAlg`). -/
def wSub : ProfileNode := ExtendPCR NewPCRProtectionProfile sampleAlg 12 [3]

/-- C1: whenever `AddSnapModelProfile` returns nil, the loop constructed
exactly one sub-profile per model — the i-th one from `Models[i]` — and the
profile was updated by a single `AddProfileOR` call receiving that list in
model order. -/
theorem C1_single_or_call (p : ProfileNode) (ps : SnapModelProfileParams)
    (h : (AddSnapModelProfile p ps).1 = none) :
    ∃ subs, buildSubProfiles ps.PCRAlgorithm ps.PCRIndex ps.Models = .ok subs ∧
      subs.length = ps.Models.length ∧
      (∀ (i : Nat) (hi : i < ps.Models.length) (hsi : i < subs.length),
        ∃ m sk, ps.Models.get ⟨i, hi⟩ = some m ∧
          RawURLEncoding.DecodeString m.signKeyID = some sk ∧
          subs.get ⟨i, hsi⟩ =
            ProfileNode.ext ps.PCRAlgorithm ps.PCRIndex
              (chainedModelDigest ps.PCRAlgorithm m sk) ProfileNode.fin) ∧
      (AddSnapModelProfile p ps).2 = AddProfileOR p subs := by
  by_cases h1 : ps.PCRIndex < 0
  · simp [AddSnapModelProfile, h1] at h
  · by_cases h2 : ps.Models.length = 0
    · simp [AddSnapModelProfile, h1, h2] at h
    · rcases hb : buildSubProfiles ps.PCRAlgorithm ps.PCRIndex ps.Models with e | subs
      · simp [AddSnapModelProfile, h1, h2, hb] at h
      · exact ⟨subs, rfl, buildSubProfiles_length _ _ _ _ hb,
          buildSubProfiles_get _ _ _ _ hb,
          by simp [AddSnapModelProfile, h1, h2, hb]⟩

/-- Witness for C1 on a two-model list with decodable sign key IDs. -/
def wParams1 : SnapModelProfileParams := ⟨sampleAlg, 12, [some wModel, some wModel2]⟩

/-- C1 witness: the success hypothesis holds on `wParams1` and the conclusion
follows by the theorem. -/
theorem C1_single_or_call_witness :
    (AddSnapModelProfile ProfileNode.fin wParams1).1 = none ∧
    ∃ subs, buildSubProfiles wParams1.PCRAlgorithm wParams1.PCRIndex wParams1.Models
        = .ok subs ∧
      subs.length = wParams1.Models.length ∧
      (∀ (i : Nat) (hi : i < wParams1.Models.length) (hsi : i < subs.length),
        ∃ m sk, wParams1.Models.get ⟨i, hi⟩ = some m ∧
          RawURLEncoding.DecodeString m.signKeyID = some sk ∧
          subs.get ⟨i, hsi⟩ =
            ProfileNode.ext wParams1.PCRAlgorithm wParams1.PCRIndex
              (chainedModelDigest wParams1.PCRAlgorithm m sk) ProfileNode.fin) ∧
      (AddSnapModelProfile ProfileNode.fin wParams1).2 =
        AddProfileOR ProfileNode.fin subs :=
  ⟨rfl, C1_single_or_call ProfileNode.fin wParams1 rfl⟩

/-- C2: for a model whose sign key ID decodes, the measurement computed by the
loop body of `AddSnapModelProfile` is the documented three-stage chained hash
over the decoded sign key, the brand ID, the model and the series. -/
theorem C2_three_stage_digest (alg : HashAlgorithmId) (m : Model) (sk : List Nat)
    (h : RawURLEncoding.DecodeString m.signKeyID = some sk) :
    measureModel alg m = .ok (chainedModelDigest alg m sk) :=
  measureModel_ok alg m sk h

/-- C2 witness: `wModel`'s sign key ID decodes to three zero bytes and its
measurement is the chained digest. -/
theorem C2_three_stage_digest_witness :
    RawURLEncoding.DecodeString wModel.signKeyID = some [0, 0, 0] ∧
    measureModel sampleAlg wModel = .ok (chainedModelDigest sampleAlg wModel [0, 0, 0]) :=
  ⟨rfl, C2_three_stage_digest sampleAlg wModel [0, 0, 0] rfl⟩

/-- C3: an empty model list always yields a non-nil error, leaves the profile
untouched, and the error is `no models provided` whenever the PCR index check
preceding it passes. -/
theorem C3_empty_models (p : ProfileNode) (ps : SnapModelProfileParams)
    (h : ps.Models = []) :
    ((AddSnapModelProfile p ps).1).isSome = true ∧
    (AddSnapModelProfile p ps).2 = p ∧
    (¬ ps.PCRIndex < 0 → (AddSnapModelProfile p ps).1 = some "no models provided") := by
  by_cases h1 : ps.PCRIndex < 0
  · refine ⟨by simp [AddSnapModelProfile, h1], by simp [AddSnapModelProfile, h1],
      fun h2 => absurd h1 h2⟩
  · simp [AddSnapModelProfile, h1, h]

/-- Parameters with an empty model list and a valid PCR index. -/
def wParams3 : SnapModelProfileParams := ⟨sampleAlg, 7, []⟩

/-- C3 witness: the empty-list hypothesis holds on `wParams3` and the
conclusion follows by the theorem. -/
theorem C3_empty_models_witness :
    ((AddSnapModelProfile ProfileNode.fin wParams3).1).isSome = true ∧
    (AddSnapModelProfile ProfileNode.fin wParams3).2 = ProfileNode.fin ∧
    (¬ wParams3.PCRIndex < 0 →
      (AddSnapModelProfile ProfileNode.fin wParams3).1 = some "no models provided") :=
  C3_empty_models ProfileNode.fin wParams3 rfl

/-- C4: the error `invalid PCR index` is returned exactly when the PCR index
is negative; PCR index 0 in particular passes the check. -/
theorem C4_invalid_index_iff (p : ProfileNode) (ps : SnapModelProfileParams) :
    (AddSnapModelProfile p ps).1 = some "invalid PCR index" ↔ ps.PCRIndex < 0 := by
  constructor
  · intro h
    by_contra h1
    by_cases h2 : ps.Models.length = 0
    · simp [AddSnapModelProfile, h1, h2] at h
    · rcases hb : buildSubProfiles ps.PCRAlgorithm ps.PCRIndex ps.Models with e | subs
      · simp [AddSnapModelProfile, h1, h2, hb] at h
        rcases buildSubProfiles_err _ _ _ _ hb with h3 | h3 <;> subst h3 <;> simp at h
      · simp [AddSnapModelProfile, h1, h2, hb] at h
  · intro h1
    simp [AddSnapModelProfile, h1]

/-- C5: whatever error `AddSnapModelProfile` returns, the profile state is
exactly the one passed in — `AddProfileOR` runs only after full validation. -/
theorem C5_error_no_mutation (p : ProfileNode) (ps : SnapModelProfileParams)
    (e : String) (h : (AddSnapModelProfile p ps).1 = some e) :
    (AddSnapModelProfile p ps).2 = p := by
  by_cases h1 : ps.PCRIndex < 0
  · simp [AddSnapModelProfile, h1]
  · by_cases h2 : ps.Models.length = 0
    · simp [AddSnapModelProfile, h1, h2]
    · rcases hb : buildSubProfiles ps.PCRAlgorithm ps.PCRIndex ps.Models with e2 | subs
      · simp [AddSnapModelProfile, h1, h2, hb]
      · simp [AddSnapModelProfile, h1, h2, hb] at h

/-- Parameters whose single entry is a nil model. -/
def wParams5 : SnapModelProfileParams := ⟨sampleAlg, 3, [none]⟩

/-- C5 witness: on a nil model the call errors and the profile is unchanged. -/
theorem C5_error_no_mutation_witness :
    (AddSnapModelProfile ProfileNode.fin wParams5).1 = some "nil model" ∧
    (AddSnapModelProfile ProfileNode.fin wParams5).2 = ProfileNode.fin :=
  ⟨rfl, C5_error_no_mutation ProfileNode.fin wParams5 "nil model" rfl⟩

/-- C6: every sub-profile collected by the loop is a fresh profile extended by
exactly one `ExtendPCR` step on the requested bank and index, carrying that
model's measurement — structurally a single `Extend` node over the empty
profile. -/
theorem C6_fresh_single_extend (alg : HashAlgorithmId) (pcr : Int)
    (ms : List (Option Model)) (subs : List ProfileNode)
    (h : buildSubProfiles alg pcr ms = .ok subs)
    (i : Nat) (hsi : i < subs.length) :
    ∃ m d, (∃ hi : i < ms.length, ms.get ⟨i, hi⟩ = some m) ∧
      measureModel alg m = .ok d ∧
      subs.get ⟨i, hsi⟩ = ExtendPCR NewPCRProtectionProfile alg pcr d ∧
      subs.get ⟨i, hsi⟩ = ProfileNode.ext alg pcr d ProfileNode.fin := by
  have hlen := buildSubProfiles_length alg pcr ms subs h
  have hi : i < ms.length := by omega
  rcases buildSubProfiles_get alg pcr ms subs h i hi hsi with ⟨m, sk, hget, hdec, hsub⟩
  refine ⟨m, chainedModelDigest alg m sk, ⟨hi, hget⟩,
    measureModel_ok alg m sk hdec, ?_, hsub⟩
  rw [hsub]
  simp [ExtendPCR, NewPCRProtectionProfile]

/-- C6 witness: on the single model `wModel` the produced list is one fresh
sub-profile with a single extend step. -/
theorem C6_fresh_single_extend_witness :
    buildSubProfiles sampleAlg 12 [some wModel] = .ok [wSub] ∧
    (∃ m d,
      (∃ hi : 0 < ([some wModel] : List (Option Model)).length,
        ([some wModel] : List (Option Model)).get ⟨0, hi⟩ = some m) ∧
      measureModel sampleAlg m = .ok d ∧
      ([wSub] : List ProfileNode).get ⟨0, by decide⟩ =
        ExtendPCR NewPCRProtectionProfile sampleAlg 12 d ∧
      ([wSub] : List ProfileNode).get ⟨0, by decide⟩ =
        ProfileNode.ext sampleAlg 12 d ProfileNode.fin) :=
  ⟨rfl, C6_fresh_single_extend sampleAlg 12 [some wModel] [wSub] rfl 0 (by decide)⟩

/-- C7: the per-model measurement is deterministic — it depends only on the
algorithm and the four model fields, with no hidden state. -/
theorem C7_deterministic (alg : HashAlgorithmId) (m1 m2 : Model)
    (h1 : m1.signKeyID = m2.signKeyID) (h2 : m1.brandID = m2.brandID)
    (h3 : m1.model = m2.model) (h4 : m1.series = m2.series) :
    measureModel alg m1 = measureModel alg m2 := by
  have hm : m1 = m2 := by
    cases m1; cases m2; simp_all
  rw [hm]

/-- C7 witness: two distinct structure literals with equal fields measure
identically. -/
theorem C7_deterministic_witness :
    measureModel sampleAlg wModel = measureModel sampleAlg wModelCopy :=
  C7_deterministic sampleAlg wModel wModelCopy rfl rfl rfl rfl

/-- C8: the i-th sub-profile depends only on the algorithm, the PCR index and
`Models[i]` — two successful runs agreeing there produce identical i-th
sub-profiles, whatever the other models are. -/
theorem C8_ith_subprofile_local (alg : HashAlgorithmId) (pcr : Int)
    (ms1 ms2 : List (Option Model)) (subs1 subs2 : List ProfileNode)
    (h1 : buildSubProfiles alg pcr ms1 = .ok subs1)
    (h2 : buildSubProfiles alg pcr ms2 = .ok subs2)
    (i : Nat) (hi1 : i < ms1.length) (hi2 : i < ms2.length)
    (hs1 : i < subs1.length) (hs2 : i < subs2.length)
    (hm : ms1.get ⟨i, hi1⟩ = ms2.get ⟨i, hi2⟩) :
    subs1.get ⟨i, hs1⟩ = subs2.get ⟨i, hs2⟩ := by
  rcases buildSubProfiles_get alg pcr ms1 subs1 h1 i hi1 hs1 with ⟨m, sk, hg1, hd1, hsub1⟩
  rcases buildSubProfiles_get alg pcr ms2 subs2 h2 i hi2 hs2 with ⟨m2, sk2, hg2, hd2, hsub2⟩
  rw [hg1, hg2] at hm
  have hmm : m = m2 := Option.some.inj hm
  subst hmm
  have hsk : sk = sk2 := by
    rw [hd1] at hd2
    exact Option.some.inj hd2
  subst hsk
  rw [hsub1, hsub2]

/-- C8 witness: two runs agreeing on the first model but differing in the
second produce the same first sub-profile. -/
theorem C8_ith_subprofile_local_witness :
    buildSubProfiles sampleAlg 12 [some wModel, some wModel2] = .ok [wSub, wSub] ∧
    buildSubProfiles sampleAlg 12 [some wModel, some wModel3] = .ok [wSub, wSub] ∧
    ([some wModel, some wModel2] : List (Option Model)).get ⟨0, by decide⟩ =
      ([some wModel, some wModel3] : List (Option Model)).get ⟨0, by decide⟩ ∧
    ([wSub, wSub] : List ProfileNode).get ⟨0, by decide⟩ =
      ([wSub, wSub] : List ProfileNode).get ⟨0, by decide⟩ :=
  ⟨rfl, rfl, rfl,
    C8_ith_subprofile_local sampleAlg 12 [some wModel, some wModel2]
      [some wModel, some wModel3] [wSub, wSub] [wSub, wSub] rfl rfl 0
      (by decide) (by decide) (by decide) (by decide) rfl⟩

/-- Parameters whose first model has an undecodable sign key ID and whose
second entry is nil. -/
def cxParams9 : SnapModelProfileParams := ⟨sampleAlg, 12, [some badModel, none]⟩

/-- C9 counterexample: the model list contains a nil entry, yet the call does
not return `nil model` — the undecodable sign key ID of the earlier model is
reported first. -/
theorem C9_counterexample :
    cxParams9.Models.get ⟨1, by decide⟩ = none ∧
    (AddSnapModelProfile ProfileNode.fin cxParams9).1 =
      some "cannot decode signing key ID" ∧
    ¬ (AddSnapModelProfile ProfileNode.fin cxParams9).1 = some "nil model" :=
  ⟨rfl, rfl, by decide⟩

/-- C9 as amended: if the PCR index is non-negative and every model before the
nil entry is non-nil with a decodable sign key ID, the call returns the error
`nil model` and leaves the profile unchanged (so the entry is never hashed). -/
theorem C9_first_nil (p : ProfileNode) (ps : SnapModelProfileParams)
    (i : Nat) (hi : i < ps.Models.length)
    (h0 : ¬ ps.PCRIndex < 0)
    (hnil : ps.Models.get ⟨i, hi⟩ = none)
    (hpre : ∀ j (hj : j < i), ∃ m sk,
      ps.Models.get ⟨j, Nat.lt_trans hj hi⟩ = some m ∧
      RawURLEncoding.DecodeString m.signKeyID = some sk) :
    (AddSnapModelProfile p ps).1 = some "nil model" ∧
    (AddSnapModelProfile p ps).2 = p := by
  have hne : ¬ ps.Models.length = 0 := by omega
  have hb := (buildSubProfiles_stop ps.PCRAlgorithm ps.PCRIndex ps.Models i hi hpre).1 hnil
  exact ⟨by simp [AddSnapModelProfile, h0, hne, hb],
    by simp [AddSnapModelProfile, h0, hne, hb]⟩

/-- Parameters with one decodable model followed by a nil entry. -/
def wParams9 : SnapModelProfileParams := ⟨sampleAlg, 0, [some wModel2, none]⟩

/-- C9 witness: on `wParams9` the amended hypotheses hold at position 1 and
the call reports `nil model` with the profile unchanged. -/
theorem C9_first_nil_witness :
    ¬ wParams9.PCRIndex < 0 ∧
    wParams9.Models.get ⟨1, by decide⟩ = none ∧
    (AddSnapModelProfile ProfileNode.fin wParams9).1 = some "nil model" ∧
    (AddSnapModelProfile ProfileNode.fin wParams9).2 = ProfileNode.fin := by
  have h := C9_first_nil ProfileNode.fin wParams9 1 (by decide) (by decide) rfl
    (by
      intro j hj
      have hj0 : j = 0 := Nat.lt_one_iff.mp hj
      subst hj0
      exact ⟨wModel2, [], rfl, rfl⟩)
  exact ⟨by decide, rfl, h.1, h.2⟩

/-- Parameters whose first entry is nil and whose second model has an
undecodable sign key ID. -/
def cxParams10 : SnapModelProfileParams := ⟨sampleAlg, 5, [none, some badModel]⟩

/-- C10 counterexample: a model with an undecodable sign key ID is in the
list, yet the call reports `nil model` for the earlier nil entry rather than a
decode failure. -/
theorem C10_counterexample :
    cxParams10.Models.get ⟨1, by decide⟩ = some badModel ∧
    RawURLEncoding.DecodeString badModel.signKeyID = none ∧
    (AddSnapModelProfile ProfileNode.fin cxParams10).1 = some "nil model" ∧
    ¬ (AddSnapModelProfile ProfileNode.fin cxParams10).1 =
      some "cannot decode signing key ID" :=
  ⟨rfl, rfl, rfl, by decide⟩

/-- C10 as amended: if the PCR index is non-negative and every model before
the first model with an undecodable sign key ID is non-nil and decodable, the
call returns the decode error `cannot decode signing key ID` and leaves the
profile unchanged, so no sub-profile is added for that or any later model. -/
theorem C10_first_undecodable (p : ProfileNode) (ps : SnapModelProfileParams)
    (i : Nat) (hi : i < ps.Models.length)
    (h0 : ¬ ps.PCRIndex < 0) (m : Model)
    (hm : ps.Models.get ⟨i, hi⟩ = some m)
    (hdec : RawURLEncoding.DecodeString m.signKeyID = none)
    (hpre : ∀ j (hj : j < i), ∃ m2 sk,
      ps.Models.get ⟨j, Nat.lt_trans hj hi⟩ = some m2 ∧
      RawURLEncoding.DecodeString m2.signKeyID = some sk) :
    (AddSnapModelProfile p ps).1 = some "cannot decode signing key ID" ∧
    (AddSnapModelProfile p ps).2 = p := by
  have hne : ¬ ps.Models.length = 0 := by omega
  have hb :=
    (buildSubProfiles_stop ps.PCRAlgorithm ps.PCRIndex ps.Models i hi hpre).2 m hm hdec
  exact ⟨by simp [AddSnapModelProfile, h0, hne, hb],
    by simp [AddSnapModelProfile, h0, hne, hb]⟩

/-- Parameters with one decodable model followed by one with an undecodable
sign key ID. -/
def wParams10 : SnapModelProfileParams := ⟨sampleAlg, 0, [some wModel2, some badModel]⟩

/-- C10 witness: on `wParams10` the amended hypotheses hold at position 1 and
the call reports the decode error with the profile unchanged. -/
theorem C10_first_undecodable_witness :
    ¬ wParams10.PCRIndex < 0 ∧
    wParams10.Models.get ⟨1, by decide⟩ = some badModel ∧
    RawURLEncoding.DecodeString badModel.signKeyID = none ∧
    (AddSnapModelProfile ProfileNode.fin wParams10).1 =
      some "cannot decode signing key ID" ∧
    (AddSnapModelProfile ProfileNode.fin wParams10).2 = ProfileNode.fin := by
  have h := C10_first_undecodable ProfileNode.fin wParams10 1 (by decide) (by decide)
    badModel rfl rfl
    (by
      intro j hj
      have hj0 : j = 0 := Nat.lt_one_iff.mp hj
      subst hj0
      exact ⟨wModel2, [], rfl, rfl⟩)
  exact ⟨by decide, rfl, rfl, h.1, h.2⟩

end Secboot

